import Mathlib

/-!
# Verification of `aws-cdk-website-deployment`

Shallow embedding of `src/cdk/lib/website-deployment-stack.ts`, a single AWS
CDK stack declaring: a private S3 hosting bucket, a CloudFront origin access
identity (OAI), a bucket resource-policy statement granting the OAI read
access, a response-headers policy with six security headers, a CloudFront
distribution, a bucket deployment action, and one CloudFormation output.

Resource declarations become Lean structures whose fields mirror the CDK
props used in the source.  Provider-assigned values (bucket name, OAI
canonical user id, distribution domain name) are collected in `ProviderEnv`
and the stack constructor is a pure function of its TypeScript parameters
plus that environment.  Provider-side request semantics (S3 access
evaluation, CloudFront header injection, viewer-protocol handling, error
mapping, deployment sync, stack teardown) are not part of the repository;
they are modelled from the spec where a claim needs them, each such
definition marked `Modelled from the spec`.
-/

namespace Cdk

/-! ## Core value types -/

/-- A span of time, stored in seconds (mirrors `cdk.Duration`). -/
structure Duration where
  seconds : Nat
deriving DecidableEq, Repr

/-- `cdk.Duration.days(d)`: `d` days expressed in seconds. -/
def Duration.days (d : Nat) : Duration := ⟨d * 24 * 60 * 60⟩

/-- `cdk.RemovalPolicy`. -/
inductive RemovalPolicy where
  | DESTROY
  | RETAIN
deriving DecidableEq, Repr

/-- A CDK construct handle (opaque scope argument of the stack constructor). -/
structure Construct where
  constructId : String
deriving DecidableEq, Repr

/-- `cdk.StackProps` (the optional third constructor argument). -/
structure StackProps where
  stackName : Option String := none
  description : Option String := none
deriving DecidableEq, Repr

/-! ## S3 bucket declaration -/

/-- `s3.BlockPublicAccess`: the four public-access-block sub-flags. -/
structure BlockPublicAccess where
  blockPublicAcls : Bool
  blockPublicPolicy : Bool
  ignorePublicAcls : Bool
  restrictPublicBuckets : Bool
deriving DecidableEq, Repr

/-- `s3.BlockPublicAccess.BLOCK_ALL`: all four sub-flags enabled. -/
def BlockPublicAccess.BLOCK_ALL : BlockPublicAccess :=
  ⟨true, true, true, true⟩

/-- `s3.BucketAccessControl` (the members relevant here). -/
inductive BucketAccessControl where
  | PRIVATE
  | PUBLIC_READ
deriving DecidableEq, Repr

/-- `s3.ObjectOwnership`. -/
inductive ObjectOwnership where
  | BUCKET_OWNER_ENFORCED
  | BUCKET_OWNER_PREFERRED
  | OBJECT_WRITER
deriving DecidableEq, Repr

/-- `s3.BucketEncryption` (the members relevant here). -/
inductive BucketEncryption where
  | S3_MANAGED
  | KMS
  | UNENCRYPTED
deriving DecidableEq, Repr

/-- The props  of the `s3.Bucket` declaration `S3HostingBucket`. -/
structure Bucket where
  publicReadAccess : Bool
  removalPolicy : RemovalPolicy
  autoDeleteObjects : Bool
  blockPublicAccess : BlockPublicAccess
  accessControl : BucketAccessControl
  objectOwnership : ObjectOwnership
  encryption : BucketEncryption
deriving DecidableEq, Repr

/-! ## IAM policy statement -/

/-- `iam.Effect` of a policy statement (CDK defaults to `ALLOW`). -/
inductive Effect where
  | ALLOW
  | DENY
deriving DecidableEq, Repr

/-- An IAM principal; the source uses only `iam.CanonicalUserPrincipal`. -/
inductive Principal where
  | canonicalUser (id : String)
deriving DecidableEq, Repr

/-- The pattern produced by `bucket.arnForObjects(keyPattern)`: the ARN of
every object of `bucket` whose key matches `keyPattern`. -/
structure ObjectArnPattern where
  bucketName : String
  keyPattern : String
deriving DecidableEq, Repr

/-- `iam.PolicyStatement` restricted to the props the source sets. -/
structure PolicyStatement where
  effect : Effect
  actions : List String
  resources : List ObjectArnPattern
  principals : List Principal
deriving DecidableEq, Repr

/-! ## CloudFront declarations -/

/-- `cloudfront.OriginAccessIdentity`: the provider assigns its S3 canonical
user id. -/
structure OriginAccessIdentity where
  cloudFrontOriginAccessIdentityS3CanonicalUserId : String
deriving DecidableEq, Repr

/-- `cloudfront.ResponseSecurityHeadersBehavior.contentSecurityPolicy`. -/
structure ContentSecurityPolicyProps where
  override : Bool
  contentSecurityPolicy : String
deriving DecidableEq, Repr

/-- `cloudfront.ResponseSecurityHeadersBehavior.strictTransportSecurity`. -/
structure StrictTransportSecurityProps where
  override : Bool
  accessControlMaxAge : Duration
  includeSubdomains : Bool
  preload : Bool
deriving DecidableEq, Repr

/-- `cloudfront.ResponseSecurityHeadersBehavior.contentTypeOptions`. -/
structure ContentTypeOptionsProps where
  override : Bool
deriving DecidableEq, Repr

/-- `cloudfront.HeadersReferrerPolicy` (the members relevant here). -/
inductive HeadersReferrerPolicy where
  | STRICT_ORIGIN_WHEN_CROSS_ORIGIN
  | NO_REFERRER
deriving DecidableEq, Repr

/-- `cloudfront.ResponseSecurityHeadersBehavior.referrerPolicy`. -/
structure ReferrerPolicyProps where
  override : Bool
  referrerPolicy : HeadersReferrerPolicy
deriving DecidableEq, Repr

/-- `cloudfront.ResponseSecurityHeadersBehavior.xssProtection`. -/
structure XssProtectionProps where
  override : Bool
  protection : Bool
  modeBlock : Bool
deriving DecidableEq, Repr

/-- `cloudfront.HeadersFrameOption`. -/
inductive HeadersFrameOption where
  | DENY
  | SAMEORIGIN
deriving DecidableEq, Repr

/-- `cloudfront.ResponseSecurityHeadersBehavior.frameOptions`. -/
structure FrameOptionsProps where
  override : Bool
  frameOption : HeadersFrameOption
deriving DecidableEq, Repr

/-- `cloudfront.ResponseSecurityHeadersBehavior`: the six security-header
directives, each optional. -/
structure SecurityHeadersBehavior where
  contentSecurityPolicy : Option ContentSecurityPolicyProps
  strictTransportSecurity : Option StrictTransportSecurityProps
  contentTypeOptions : Option ContentTypeOptionsProps
  referrerPolicy : Option ReferrerPolicyProps
  xssProtection : Option XssProtectionProps
  frameOptions : Option FrameOptionsProps
deriving DecidableEq, Repr

/-- `cloudfront.ResponseHeadersPolicy` restricted to the props the source
sets. -/
structure ResponseHeadersPolicy where
  comment : Option String
  securityHeadersBehavior : SecurityHeadersBehavior
deriving DecidableEq, Repr

/-- `cloudfront.AllowedMethods`. -/
inductive AllowedMethods where
  | ALLOW_GET_HEAD
  | ALLOW_GET_HEAD_OPTIONS
  | ALLOW_ALL
deriving DecidableEq, Repr

/-- The HTTP method set named by each `AllowedMethods` member. -/
def AllowedMethods.methods : AllowedMethods → List String
  | .ALLOW_GET_HEAD => ["GET", "HEAD"]
  | .ALLOW_GET_HEAD_OPTIONS => ["GET", "HEAD", "OPTIONS"]
  | .ALLOW_ALL => ["GET", "HEAD", "OPTIONS", "PUT", "PATCH", "POST", "DELETE"]

/-- `cloudfront.ViewerProtocolPolicy`. -/
inductive ViewerProtocolPolicy where
  | REDIRECT_TO_HTTPS
  | HTTPS_ONLY
  | ALLOW_ALL
deriving DecidableEq, Repr

/-- `cloudfront.SecurityPolicyProtocol` (the members relevant here). -/
inductive SecurityPolicyProtocol where
  | TLS_V1_2_2021
  | TLS_V1_2_2019
  | TLS_V1
deriving DecidableEq, Repr

/-- `origins.S3Origin(bucket, { originAccessIdentity })`. -/
structure S3Origin where
  bucketName : String
  originAccessIdentity : Option OriginAccessIdentity
deriving DecidableEq, Repr

/-- The `defaultBehavior` props of the distribution. -/
structure BehaviorOptions where
  origin : S3Origin
  compress : Bool
  allowedMethods : AllowedMethods
  viewerProtocolPolicy : ViewerProtocolPolicy
  responseHeadersPolicy : Option ResponseHeadersPolicy
deriving DecidableEq, Repr

/-- One entry of the distribution's `errorResponses` list. -/
structure ErrorResponse where
  httpStatus : Nat
  responseHttpStatus : Option Nat
  responsePagePath : Option String
deriving DecidableEq, Repr

/-- `cloudfront.Distribution`: the declared props plus the
provider-assigned domain name. -/
structure Distribution where
  defaultRootObject : Option String
  minimumProtocolVersion : SecurityPolicyProtocol
  defaultBehavior : BehaviorOptions
  errorResponses : List ErrorResponse
  domainName : String
deriving DecidableEq, Repr

/-! ## Deployment and output -/

/-- `s3deploy.BucketDeployment` restricted to the props the source sets;
`sources` holds the `s3deploy.Source.asset` paths. -/
structure BucketDeployment where
  sources : List String
  prune : Bool
  destinationBucketName : String
  distribution : Option Distribution
deriving DecidableEq, Repr

/-- `cdk.CfnOutput`. -/
structure CfnOutput where
  outputId : String
  value : String
  description : Option String
  exportName : Option String
deriving DecidableEq, Repr

/-! ## Provider-assigned values and the stack -/

/-- Values the cloud platform assigns at deploy time (unresolved tokens at
synthesis time): the bucket name, the OAI's S3 canonical user id, and the
distribution's public domain name. -/
structure ProviderEnv where
  bucketName : String
  oaiS3CanonicalUserId : String
  distributionDomainName : String
deriving DecidableEq, Repr

/-- `bucket.arnForObjects(keyPattern)`. -/
def arnForObjects (bucketName keyPattern : String) : ObjectArnPattern :=
  ⟨bucketName, keyPattern⟩

/-- The resources declared by `WebsiteDeploymentStack`'s constructor. -/
structure WebsiteDeploymentStack where
  s3HostingBucket : Bucket
  cloudfrontOAI : OriginAccessIdentity
  bucketResourcePolicy : List PolicyStatement
  responseHeaderPolicy : ResponseHeadersPolicy
  cloudfrontDistribution : Distribution
  s3HostingBucketDeployment : BucketDeployment
  outputs : List CfnOutput
deriving DecidableEq, Repr

/-- The body of `new WebsiteDeploymentStack(scope, id, props)`, line by line
from `src/cdk/lib/website-deployment-stack.ts`. -/
def websiteDeploymentStack (_scope : Construct) (_id : String)
    (_props : Option StackProps) (env : ProviderEnv) : WebsiteDeploymentStack :=
  let s3HostingBucket : Bucket :=
    { publicReadAccess := false
      removalPolicy := .DESTROY
      autoDeleteObjects := true
      blockPublicAccess := BlockPublicAccess.BLOCK_ALL
      accessControl := .PRIVATE
      objectOwnership := .BUCKET_OWNER_ENFORCED
      encryption := .S3_MANAGED }
  let cloudfrontOAI : OriginAccessIdentity :=
    { cloudFrontOriginAccessIdentityS3CanonicalUserId := env.oaiS3CanonicalUserId }
  let policyStatement : PolicyStatement :=
    { effect := .ALLOW
      actions := ["s3:GetObject"]
      resources := [arnForObjects env.bucketName "*"]
      principals := [.canonicalUser
        cloudfrontOAI.cloudFrontOriginAccessIdentityS3CanonicalUserId] }
  let responseHeaderPolicy : ResponseHeadersPolicy :=
    { comment := some "Security headers response header policy"
      securityHeadersBehavior :=
        { contentSecurityPolicy := some
            { override := true
              contentSecurityPolicy := "default-src https:;" }
          strictTransportSecurity := some
            { override := true
              accessControlMaxAge := Duration.days (2 * 365)
              includeSubdomains := true
              preload := true }
          contentTypeOptions := some { override := true }
          referrerPolicy := some
            { override := true
              referrerPolicy := .STRICT_ORIGIN_WHEN_CROSS_ORIGIN }
          xssProtection := some
            { override := true
              protection := true
              modeBlock := true }
          frameOptions := some
            { override := true
              frameOption := .DENY } } }
  let cloudfrontDistribution : Distribution :=
    { defaultRootObject := some "index.html"
      minimumProtocolVersion := .TLS_V1_2_2021
      defaultBehavior :=
        { origin :=
            { bucketName := env.bucketName
              originAccessIdentity := some cloudfrontOAI }
          compress := true
          allowedMethods := .ALLOW_GET_HEAD_OPTIONS
          viewerProtocolPolicy := .REDIRECT_TO_HTTPS
          responseHeadersPolicy := some responseHeaderPolicy }
      errorResponses :=
        [ { httpStatus := 403
            responseHttpStatus := some 404
            responsePagePath := some "/404.html" } ]
      domainName := env.distributionDomainName }
  { s3HostingBucket := s3HostingBucket
    cloudfrontOAI := cloudfrontOAI
    bucketResourcePolicy := [policyStatement]
    responseHeaderPolicy := responseHeaderPolicy
    cloudfrontDistribution := cloudfrontDistribution
    s3HostingBucketDeployment :=
      { sources := ["../website"]
        prune := false
        destinationBucketName := env.bucketName
        distribution := some cloudfrontDistribution }
    outputs :=
      [ { outputId := "CloudFrontDomainName"
          value := cloudfrontDistribution.domainName
          description := some "Domain name of the CloudFront distribution"
          exportName := some "cloudFrontDomainName" } ] }

/-! ## Provider semantics, modelled from the spec

The following definitions are not repository code: they model, from the
spec's contracts (§4.2, §4.3, §4.4, §4.5, §8), how the cloud provider
evaluates the declared configuration on a request. -/

/-- Modelled from the spec: IAM wildcard matching for resource key patterns
(`*` matches any run of characters; other characters match literally). -/
def globMatch (p s : List Char) : Bool :=
  match p, s with
  | [], [] => true
  | [], _ :: _ => false
  | '*' :: ps, [] => globMatch ps []
  | '*' :: ps, c :: s2 => globMatch ps (c :: s2) || globMatch ('*' :: ps) s2
  | _ :: _, [] => false
  | ch :: ps, c :: s2 => ch == c && globMatch ps s2
termination_by (s.length, p.length)

/-- Whether an object-ARN pattern covers the object `key` of bucket
`bucketName`. -/
def ObjectArnPattern.matches (pat : ObjectArnPattern)
    (bucketName key : String) : Bool :=
  pat.bucketName == bucketName && globMatch pat.keyPattern.data key.data

/-- A principal making a read request against the bucket: either the
anonymous public, or a canonical user (such as the OAI). -/
inductive Requester where
  | anonymous
  | canonicalUser (id : String)
deriving DecidableEq, Repr

/-- Whether a declared principal matches the requester. -/
def Principal.matchesRequester : Principal → Requester → Bool
  | .canonicalUser i, .canonicalUser j => i == j
  | .canonicalUser _, .anonymous => false

/-- Modelled from the spec (§4.2, §8.2): S3 read-access evaluation for a
`GetObject` request against the declared bucket.  Anonymous public reads
are allowed only when public read access is enabled and not blocked by the
public-access block; otherwise a request is allowed exactly when some
resource-policy statement allows `s3:GetObject` on the object for the
requesting principal. -/
def bucketAllowsRead (b : Bucket) (policy : List PolicyStatement)
    (bucketName : String) (req : Requester) (key : String) : Bool :=
  (match req with
   | .anonymous =>
       b.publicReadAccess && !b.blockPublicAccess.blockPublicPolicy
         && !b.blockPublicAccess.restrictPublicBuckets
   | .canonicalUser _ => false)
  || policy.any (fun st =>
       st.effect == .ALLOW
         && st.actions.any (fun a => a == "s3:GetObject")
         && st.resources.any (fun pat => pat.matches bucketName key)
         && st.principals.any (fun p => p.matchesRequester req))

/-- The rendered value of the strict-transport-security header. -/
def hstsValue (p : StrictTransportSecurityProps) : String :=
  "max-age=" ++ toString p.accessControlMaxAge.seconds
    ++ (if p.includeSubdomains then "; includeSubDomains" else "")
    ++ (if p.preload then "; preload" else "")

/-- The rendered value of the referrer-policy header. -/
def referrerValue : HeadersReferrerPolicy → String
  | .STRICT_ORIGIN_WHEN_CROSS_ORIGIN => "strict-origin-when-cross-origin"
  | .NO_REFERRER => "no-referrer"

/-- The rendered value of the x-xss-protection header. -/
def xssValue (p : XssProtectionProps) : String :=
  if p.protection then (if p.modeBlock then "1; mode=block" else "1") else "0"

/-- The rendered value of the x-frame-options header. -/
def frameValue : HeadersFrameOption → String
  | .DENY => "DENY"
  | .SAMEORIGIN => "SAMEORIGIN"

/-- The directive, if any, that a security-headers behavior declares for the
response header `name`: its override flag and rendered value. -/
def SecurityHeadersBehavior.directiveFor (shb : SecurityHeadersBehavior)
    (name : String) : Option (Bool × String) :=
  if name = "content-security-policy" then
    shb.contentSecurityPolicy.map (fun p => (p.override, p.contentSecurityPolicy))
  else if name = "strict-transport-security" then
    shb.strictTransportSecurity.map (fun p => (p.override, hstsValue p))
  else if name = "x-content-type-options" then
    shb.contentTypeOptions.map (fun p => (p.override, "nosniff"))
  else if name = "referrer-policy" then
    shb.referrerPolicy.map (fun p => (p.override, referrerValue p.referrerPolicy))
  else if name = "x-xss-protection" then
    shb.xssProtection.map (fun p => (p.override, xssValue p))
  else if name = "x-frame-options" then
    shb.frameOptions.map (fun p => (p.override, frameValue p.frameOption))
  else none

/-- Modelled from the spec (§4.3, §8.4): the value of response header `name`
after CloudFront applies the security-headers behavior to a response whose
origin-set headers are `origin`.  A directive with `override` replaces any
origin value; without `override` it fills the header only when absent. -/
def responseHeaderAfterPolicy (shb : SecurityHeadersBehavior)
    (origin : String → Option String) (name : String) : Option String :=
  match shb.directiveFor name with
  | some (ov, v) =>
      if ov then some v
      else match origin name with
        | some w => some w
        | none => some v
  | none => origin name

/-- The scheme of a viewer request. -/
inductive ViewerScheme where
  | http
  | https
deriving DecidableEq, Repr

/-- The distribution's reaction to a viewer request's scheme. -/
inductive ViewerAction where
  | redirectToHttps
  | serve
  | reject
deriving DecidableEq, Repr

/-- Modelled from the spec (§4.4, §8.1): how each viewer-protocol policy
treats a request scheme. -/
def viewerAction : ViewerProtocolPolicy → ViewerScheme → ViewerAction
  | .REDIRECT_TO_HTTPS, .http => .redirectToHttps
  | .REDIRECT_TO_HTTPS, .https => .serve
  | .HTTPS_ONLY, .http => .reject
  | .HTTPS_ONLY, .https => .serve
  | .ALLOW_ALL, _ => .serve

/-- Modelled from the spec (§4.4, §8.3): the client-visible status and
optional substituted page after the distribution applies its error-mapping
rules to an origin response status. -/
def applyErrorResponses (rules : List ErrorResponse) (originStatus : Nat) :
    Nat × Option String :=
  match rules.find? (fun r => r.httpStatus == originStatus) with
  | some r => (r.responseHttpStatus.getD originStatus, r.responsePagePath)
  | none => (originStatus, none)

/-- Modelled from the spec (§4.5): the deployment action's sync of source
files into the bucket.  Uploaded files replace same-key objects; with
`prune` enabled, bucket objects absent from the source set are deleted,
otherwise they are left untouched.  Returns the resulting object list and
whether a cache invalidation is triggered. -/
def runDeployment (d : BucketDeployment)
    (sourceFiles : List (String × String))
    (existing : List (String × String)) :
    List (String × String) × Bool :=
  let kept := existing.filter (fun o => sourceFiles.all (fun f => f.1 ≠ o.1))
  let afterUpload := sourceFiles ++ kept
  let afterPrune :=
    if d.prune then
      afterUpload.filter (fun o => sourceFiles.any (fun f => f.1 == o.1))
    else afterUpload
  (afterPrune, d.distribution.isSome)

/-- Modelled from the spec (§4.1, §8.6): tearing down the stack.  Returns
`none` when the bucket (and all its objects) is deleted, and `some objs`
when the bucket survives with its objects. -/
def teardownBucket (b : Bucket) (objs : List String) : Option (List String) :=
  match b.removalPolicy with
  | .DESTROY => if b.autoDeleteObjects || objs.isEmpty then none else some objs
  | .RETAIN => some objs

/-! ## Helper lemmas -/

/-- The data of the one-character pattern string. -/
theorem data_star : ("*" : String).data = ['*'] := rfl

/-- The wildcard pattern `*` matches every string of characters. -/
theorem globMatch_star (s : List Char) : globMatch ['*'] s = true := by
  induction s with
  | nil => simp [globMatch]
  | cons c s ih => simp [globMatch, ih]

/-- The wildcard object-ARN pattern of a bucket covers every object key of
that bucket. -/
theorem arnForObjects_star_matches (bucketName key : String) :
    (arnForObjects bucketName "*").matches bucketName key = true := by
  simp [arnForObjects, ObjectArnPattern.matches, data_star, globMatch_star]

/-! ## Claim theorems -/

/-- C1: The bucket declaration disables public read access, enables all four
public-access-block sub-flags, sets private access control, enforces bucket
owner object ownership, and uses provider-managed encryption; under the
spec-modelled S3 access evaluation, anonymous direct reads are always
denied and a read succeeds exactly for the OAI's canonical user — the only
read route is CDN → origin identity → bucket policy. -/
theorem bucket_never_publicly_reachable (scope : Construct) (id : String)
    (props : Option StackProps) (env : ProviderEnv) :
    (websiteDeploymentStack scope id props env).s3HostingBucket.publicReadAccess = false ∧
    (websiteDeploymentStack scope id props env).s3HostingBucket.blockPublicAccess =
      ⟨true, true, true, true⟩ ∧
    (websiteDeploymentStack scope id props env).s3HostingBucket.accessControl = .PRIVATE ∧
    (websiteDeploymentStack scope id props env).s3HostingBucket.objectOwnership =
      .BUCKET_OWNER_ENFORCED ∧
    (websiteDeploymentStack scope id props env).s3HostingBucket.encryption = .S3_MANAGED ∧
    (∀ key, bucketAllowsRead
      (websiteDeploymentStack scope id props env).s3HostingBucket
      (websiteDeploymentStack scope id props env).bucketResourcePolicy
      env.bucketName .anonymous key = false) ∧
    (∀ req key, bucketAllowsRead
      (websiteDeploymentStack scope id props env).s3HostingBucket
      (websiteDeploymentStack scope id props env).bucketResourcePolicy
      env.bucketName req key = true ↔
      req = .canonicalUser env.oaiS3CanonicalUserId) := by
  have hb : (websiteDeploymentStack scope id props env).s3HostingBucket =
      ⟨false, .DESTROY, true, ⟨true, true, true, true⟩, .PRIVATE,
        .BUCKET_OWNER_ENFORCED, .S3_MANAGED⟩ := rfl
  have hp : (websiteDeploymentStack scope id props env).bucketResourcePolicy =
      [⟨.ALLOW, ["s3:GetObject"], [arnForObjects env.bucketName "*"],
        [.canonicalUser env.oaiS3CanonicalUserId]⟩] := rfl
  rw [hb, hp]
  refine ⟨rfl, rfl, rfl, rfl, rfl, ?_, ?_⟩
  · intro key
    simp [bucketAllowsRead, Principal.matchesRequester]
  · intro req key
    cases req with
    | anonymous =>
      simp [bucketAllowsRead, Principal.matchesRequester]
    | canonicalUser j =>
      simp [bucketAllowsRead, Principal.matchesRequester, arnForObjects_star_matches]
      exact comm

/-- C2: The response-headers policy declares all six security-header
directives with override semantics and the exact configured values (CSP
`default-src https:;`, HSTS max-age 63072000 with sub-domains and preload,
nosniff, strict-origin-when-cross-origin, XSS block mode, frame DENY); it
is attached to the distribution's default behavior, and under the
spec-modelled header application every response carries the six headers
with those exact values regardless of origin-set headers. -/
theorem response_headers_policy_six_overriding_directives (scope : Construct)
    (id : String) (props : Option StackProps) (env : ProviderEnv) :
    (websiteDeploymentStack scope id props env).responseHeaderPolicy.securityHeadersBehavior =
      { contentSecurityPolicy := some ⟨true, "default-src https:;"⟩
        strictTransportSecurity := some ⟨true, ⟨63072000⟩, true, true⟩
        contentTypeOptions := some ⟨true⟩
        referrerPolicy := some ⟨true, .STRICT_ORIGIN_WHEN_CROSS_ORIGIN⟩
        xssProtection := some ⟨true, true, true⟩
        frameOptions := some ⟨true, .DENY⟩ } ∧
    (websiteDeploymentStack scope id props env).cloudfrontDistribution.defaultBehavior.responseHeadersPolicy =
      some (websiteDeploymentStack scope id props env).responseHeaderPolicy ∧
    (∀ origin : String → Option String,
      responseHeaderAfterPolicy
        (websiteDeploymentStack scope id props env).responseHeaderPolicy.securityHeadersBehavior
        origin "content-security-policy" = some "default-src https:;" ∧
      responseHeaderAfterPolicy
        (websiteDeploymentStack scope id props env).responseHeaderPolicy.securityHeadersBehavior
        origin "strict-transport-security" =
          some "max-age=63072000; includeSubDomains; preload" ∧
      responseHeaderAfterPolicy
        (websiteDeploymentStack scope id props env).responseHeaderPolicy.securityHeadersBehavior
        origin "x-content-type-options" = some "nosniff" ∧
      responseHeaderAfterPolicy
        (websiteDeploymentStack scope id props env).responseHeaderPolicy.securityHeadersBehavior
        origin "referrer-policy" = some "strict-origin-when-cross-origin" ∧
      responseHeaderAfterPolicy
        (websiteDeploymentStack scope id props env).responseHeaderPolicy.securityHeadersBehavior
        origin "x-xss-protection" = some "1; mode=block" ∧
      responseHeaderAfterPolicy
        (websiteDeploymentStack scope id props env).responseHeaderPolicy.securityHeadersBehavior
        origin "x-frame-options" = some "DENY") :=
  ⟨rfl, rfl, fun _ => ⟨rfl, rfl, rfl, rfl, rfl, rfl⟩⟩

/-- C3: The distribution declares exactly one error-mapping rule — origin
status 403 becomes client status 404 served from `/404.html` — and under
the spec-modelled error mapping every other origin status passes through
unmapped. -/
theorem single_403_to_404_error_mapping (scope : Construct) (id : String)
    (props : Option StackProps) (env : ProviderEnv) :
    (websiteDeploymentStack scope id props env).cloudfrontDistribution.errorResponses =
      [⟨403, some 404, some "/404.html"⟩] ∧
    (∀ s, applyErrorResponses
      (websiteDeploymentStack scope id props env).cloudfrontDistribution.errorResponses s =
      if s = 403 then (404, some "/404.html") else (s, none)) := by
  refine ⟨rfl, ?_⟩
  intro s
  show applyErrorResponses [⟨403, some 404, some "/404.html"⟩] s = _
  by_cases h : s = 403
  · subst h
    rfl
  · have hbeq : (403 == s) = false := by
      simp [Ne.symm h]
    simp [applyErrorResponses, List.find?, hbeq, h]

/-- C4: The distribution's single default behavior binds the bucket origin
through the origin access identity, redirects plain-HTTP viewers to HTTPS
(spec-modelled viewer-protocol semantics), allows only GET/HEAD/OPTIONS,
enables compression, attaches the response-headers policy, and enforces
minimum TLS 1.2 (2021 policy). -/
theorem default_behavior_configuration (scope : Construct) (id : String)
    (props : Option StackProps) (env : ProviderEnv) :
    (websiteDeploymentStack scope id props env).cloudfrontDistribution.defaultBehavior.origin =
      ⟨env.bucketName, some (websiteDeploymentStack scope id props env).cloudfrontOAI⟩ ∧
    (websiteDeploymentStack scope id props env).cloudfrontDistribution.defaultBehavior.viewerProtocolPolicy =
      .REDIRECT_TO_HTTPS ∧
    viewerAction
      (websiteDeploymentStack scope id props env).cloudfrontDistribution.defaultBehavior.viewerProtocolPolicy
      .http = .redirectToHttps ∧
    viewerAction
      (websiteDeploymentStack scope id props env).cloudfrontDistribution.defaultBehavior.viewerProtocolPolicy
      .https = .serve ∧
    (websiteDeploymentStack scope id props env).cloudfrontDistribution.defaultBehavior.allowedMethods =
      .ALLOW_GET_HEAD_OPTIONS ∧
    (websiteDeploymentStack scope id props env).cloudfrontDistribution.defaultBehavior.allowedMethods.methods =
      ["GET", "HEAD", "OPTIONS"] ∧
    (websiteDeploymentStack scope id props env).cloudfrontDistribution.defaultBehavior.compress = true ∧
    (websiteDeploymentStack scope id props env).cloudfrontDistribution.defaultBehavior.responseHeadersPolicy =
      some (websiteDeploymentStack scope id props env).responseHeaderPolicy ∧
    (websiteDeploymentStack scope id props env).cloudfrontDistribution.minimumProtocolVersion =
      .TLS_V1_2_2021 :=
  ⟨rfl, rfl, rfl, rfl, rfl, rfl, rfl, rfl, rfl⟩

/-- C5: The deployment action has pruning disabled: under the spec-modelled
deployment sync, any object present in the bucket whose key is absent from
the source files survives a redeploy untouched, and the deployment's
distribution association makes the redeploy trigger a cache invalidation. -/
theorem deployment_prune_disabled (scope : Construct) (id : String)
    (props : Option StackProps) (env : ProviderEnv)
    (sourceFiles existing : List (String × String)) (key v : String)
    (hmem : (key, v) ∈ existing)
    (habs : ∀ f ∈ sourceFiles, Prod.fst f ≠ key) :
    (websiteDeploymentStack scope id props env).s3HostingBucketDeployment.prune = false ∧
    (key, v) ∈ (runDeployment
      (websiteDeploymentStack scope id props env).s3HostingBucketDeployment
      sourceFiles existing).1 ∧
    (runDeployment
      (websiteDeploymentStack scope id props env).s3HostingBucketDeployment
      sourceFiles existing).2 = true := by
  have hd : (websiteDeploymentStack scope id props env).s3HostingBucketDeployment =
      ⟨["../website"], false, env.bucketName,
        some (websiteDeploymentStack scope id props env).cloudfrontDistribution⟩ := rfl
  rw [hd]
  refine ⟨rfl, ?_, rfl⟩
  simp only [runDeployment, if_neg (by simp : ¬(false = true))]
  refine List.mem_append.mpr (Or.inr ?_)
  refine List.mem_filter.mpr ⟨hmem, ?_⟩
  simp only [List.all_eq_true, decide_eq_true_eq]
  exact fun f hf => habs f hf

/-- Witness for C5 at a concrete redeploy: the bucket holds `old.txt`,
the new source set contains only `index.html`, and `old.txt` survives
while an invalidation is triggered. -/
theorem deployment_prune_disabled_witness :
    (("old.txt", "x") ∈ [("old.txt", "x")]) ∧
    (∀ f ∈ [("index.html", "new")], Prod.fst f ≠ "old.txt") ∧
    ((websiteDeploymentStack ⟨"app"⟩ "Site" none
        ⟨"bkt", "oai", "dom"⟩).s3HostingBucketDeployment.prune = false ∧
      ("old.txt", "x") ∈ (runDeployment
        (websiteDeploymentStack ⟨"app"⟩ "Site" none
          ⟨"bkt", "oai", "dom"⟩).s3HostingBucketDeployment
        [("index.html", "new")] [("old.txt", "x")]).1 ∧
      (runDeployment
        (websiteDeploymentStack ⟨"app"⟩ "Site" none
          ⟨"bkt", "oai", "dom"⟩).s3HostingBucketDeployment
        [("index.html", "new")] [("old.txt", "x")]).2 = true) :=
  ⟨by decide, by decide,
    deployment_prune_disabled ⟨"app"⟩ "Site" none ⟨"bkt", "oai", "dom"⟩
      [("index.html", "new")] [("old.txt", "x")] "old.txt" "x"
      (by decide) (by decide)⟩

/-- C6: The bucket's removal policy is DESTROY with automatic object
deletion enabled, so under the spec-modelled teardown the bucket and every
contained object are deleted, including when the bucket is non-empty. -/
theorem destructive_teardown (scope : Construct) (id : String)
    (props : Option StackProps) (env : ProviderEnv) :
    (websiteDeploymentStack scope id props env).s3HostingBucket.removalPolicy = .DESTROY ∧
    (websiteDeploymentStack scope id props env).s3HostingBucket.autoDeleteObjects = true ∧
    (∀ objs, teardownBucket
      (websiteDeploymentStack scope id props env).s3HostingBucket objs = none) :=
  ⟨rfl, rfl, fun _ => rfl⟩

/-- C7: The stack creates an origin access identity and attaches to the
bucket's resource policy exactly one statement: effect allow, action
`s3:GetObject`, resource the bucket's wildcard object-ARN pattern (which
covers every object key), principal the origin identity's canonical user
id. -/
theorem oai_read_policy_statement (scope : Construct) (id : String)
    (props : Option StackProps) (env : ProviderEnv) :
    (websiteDeploymentStack scope id props env).cloudfrontOAI =
      ⟨env.oaiS3CanonicalUserId⟩ ∧
    (websiteDeploymentStack scope id props env).bucketResourcePolicy =
      [{ effect := .ALLOW
         actions := ["s3:GetObject"]
         resources := [arnForObjects env.bucketName "*"]
         principals := [.canonicalUser
           (websiteDeploymentStack scope id props
             env).cloudfrontOAI.cloudFrontOriginAccessIdentityS3CanonicalUserId] }] ∧
    (∀ key, (arnForObjects env.bucketName "*").matches env.bucketName key = true) :=
  ⟨rfl, rfl, fun key => arnForObjects_star_matches env.bucketName key⟩

/-- C8: The stack exposes exactly one output: a named, exported string
value equal to the distribution's assigned public domain name. -/
theorem single_domain_name_output (scope : Construct) (id : String)
    (props : Option StackProps) (env : ProviderEnv) :
    (websiteDeploymentStack scope id props env).outputs =
      [⟨"CloudFrontDomainName",
        (websiteDeploymentStack scope id props env).cloudfrontDistribution.domainName,
        some "Domain name of the CloudFront distribution",
        some "cloudFrontDomainName"⟩] ∧
    (websiteDeploymentStack scope id props env).cloudfrontDistribution.domainName =
      env.distributionDomainName :=
  ⟨rfl, rfl⟩

/-- C9: The distribution's default root object is the fixed string
`index.html`. -/
theorem default_root_object_index_html (scope : Construct) (id : String)
    (props : Option StackProps) (env : ProviderEnv) :
    (websiteDeploymentStack scope id props env).cloudfrontDistribution.defaultRootObject =
      some "index.html" :=
  rfl

/-- C10: The deployment's source asset directory is the fixed relative path
`../website` and the output's export name is the fixed string
`cloudFrontDomainName`; both are identical across all constructor
arguments, so neither is configurable through any stack parameter. -/
theorem hardcoded_source_dir_and_export_name
    (scope₁ : Construct) (id₁ : String) (props₁ : Option StackProps)
    (env₁ : ProviderEnv)
    (scope₂ : Construct) (id₂ : String) (props₂ : Option StackProps)
    (env₂ : ProviderEnv) :
    (websiteDeploymentStack scope₁ id₁ props₁ env₁).s3HostingBucketDeployment.sources =
      ["../website"] ∧
    (websiteDeploymentStack scope₁ id₁ props₁ env₁).outputs.map CfnOutput.exportName =
      [some "cloudFrontDomainName"] ∧
    (websiteDeploymentStack scope₁ id₁ props₁ env₁).s3HostingBucketDeployment.sources =
      (websiteDeploymentStack scope₂ id₂ props₂ env₂).s3HostingBucketDeployment.sources ∧
    (websiteDeploymentStack scope₁ id₁ props₁ env₁).outputs.map CfnOutput.exportName =
      (websiteDeploymentStack scope₂ id₂ props₂ env₂).outputs.map CfnOutput.exportName :=
  ⟨rfl, rfl, rfl, rfl⟩

end Cdk
